import Mathlib

/-!
Shallow embedding of the `windowpos` utility (`src/__init__.py`).

The program runs under Python 2 semantics (integer `/` is floor division,
`bytes.split` on text output), so all arithmetic below is over `Int`/`Nat`
with Python 2 floor division.  Monitor widths and heights are parsed from
`xrandr` output by the regex `([0-9]+)x([0-9]+)` and are therefore
non-negative (`Nat`); monitor origins may be negative (`Int`).

Effectful parts (shelling out to `xrandr`/`xdotool`/`wmctrl`) are modelled
by an `Env` oracle record; the observable side effects (window moves,
desktop reassignment) are collected as a list of `Action`s.
-/

namespace Windowpos

/-- A connected monitor, as parsed from `xrandr` output
(`get_screens_and_positions`). -/
structure Monitor where
  name : String
  x : Int
  y : Int
  w : Nat
  h : Nat
deriving Repr, DecidableEq

/-- A margin inset in CSS order `(top, right, bottom, left)`, the values of
the `SCREEN_MARGINS` / `CHROMIUM_MARGINS` tables. -/
structure Margins where
  top : Int
  right : Int
  bottom : Int
  left : Int
deriving Repr, DecidableEq

/-- The rectangle a window is moved/resized to. -/
structure TargetRect where
  x : Int
  y : Int
  w : Int
  h : Int
deriving Repr, DecidableEq

/-- The static `SCREEN_MARGINS` configuration table of the source, keyed by
monitor name; `none` models a missing dictionary key. -/
def SCREEN_MARGINS : String → Option Margins
  | "DP-0" => some ⟨0, 0, 24, 0⟩
  | "DP-2" => some ⟨0, 0, 27, 0⟩
  | "DP-4" => some ⟨24, 0, 0, 0⟩
  | _ => none

/-- The static `CHROMIUM_MARGINS` configuration table of the source. -/
def CHROMIUM_MARGINS : String → Option Margins
  | "DVI-1-0" => some ⟨32, 0, 32, 0⟩
  | "HDMI-0" => some ⟨0, 0, 0, 0⟩
  | _ => none

/-- Python's substring test `needle in hay`: contiguous-substring
containment on the character sequences. -/
def str_contains (hay needle : String) : Bool :=
  decide (needle.toList <:+: hay.toList)

/-- The geometry core of `reposition_window` (source lines 676-698): given
the target monitor, the already-selected margin inset and the position
keyword tuple, compute the target rectangle.  Mirrors the source's
sequence of reassignments, including the evaluation order of the
`right`/`left` and `bottom`/`top` overrides. -/
def resolve_target_rect (m : Monitor) (mg : Margins) (pos : List String) : TargetRect :=
  -- WIDTH + HEIGHT: default target width and height
  let target_width : Int := (m.w : Int) - mg.right - mg.left
  let target_height : Int := (m.h : Int) - mg.top - mg.bottom
  -- halve width when a horizontal keyword appears
  let target_width : Int :=
    if pos.contains "left" || pos.contains "right" then
      ((m.w / 2 : Nat) : Int) - mg.right - mg.left
    else target_width
  -- halve height when a vertical keyword appears
  let target_height : Int :=
    if pos.contains "top" || pos.contains "bottom" then
      ((m.h / 2 : Nat) : Int) - mg.top - mg.bottom
    else target_height
  -- POSITION - default to top left
  let target_xoff : Int := m.x + mg.left
  let target_yoff : Int := m.y + mg.top
  let target_xoff : Int :=
    if pos.contains "right" then m.x + (m.w : Int) - target_width - mg.right
    else target_xoff
  let target_xoff : Int :=
    if pos.contains "left" then m.x + mg.left
    else target_xoff
  let target_yoff : Int :=
    if pos.contains "bottom" then m.y + (m.h : Int) - target_height - mg.bottom
    else target_yoff
  let target_yoff : Int :=
    if pos.contains "top" then m.y + mg.top
    else target_yoff
  ⟨target_xoff, target_yoff, target_width, target_height⟩

/-- Margin selection of `reposition_window` (source lines 668-674): start
from the general `SCREEN_MARGINS` entry (default all-zero), then replace it
with the `CHROMIUM_MARGINS` entry (default `(32,0,0,0)`) when the lowered
window title contains a browser marker and the request is purely
horizontal. -/
def margins_for_window (monitor_name : String) (title : String) (pos : List String) : Margins :=
  let lower_win_title := title.toLower
  let target_monitor_margins := (SCREEN_MARGINS monitor_name).getD ⟨0, 0, 0, 0⟩
  if str_contains lower_win_title "google chrome" || str_contains lower_win_title "chromium" then
    if (pos.contains "left" || pos.contains "right")
        && !(pos.contains "top" || pos.contains "bottom") then
      (CHROMIUM_MARGINS monitor_name).getD ⟨32, 0, 0, 0⟩
    else target_monitor_margins
  else target_monitor_margins

/-- Python truthiness of an optional integer: `None` and `0` are falsy. -/
def truthyInt : Option Int → Bool
  | none => false
  | some i => i != 0

/-- Python truthiness of an optional string: `None` and `""` are falsy. -/
def truthyStr : Option String → Bool
  | none => false
  | some s => !s.isEmpty

/-- The containment test of `get_monitor_a_location_is_on` (source line
443): the point lies in `[x, x+w] × [y, y+h]` with inclusive bounds. -/
def monitor_contains (m : Monitor) (px py : Int) : Bool :=
  decide (px ≥ m.x ∧ px ≤ m.x + (m.w : Int) ∧ py ≥ m.y ∧ py ≤ m.y + (m.h : Int))

/-- The `for ... break` search loop of `get_monitor_a_location_is_on`:
the first monitor containing the point, else the supplied default. -/
def find_resident (px py : Int) (dflt : Monitor) : List Monitor → Monitor
  | [] => dflt
  | m :: rest => if monitor_contains m px py then m else find_resident px py dflt rest

/-- `get_monitor_a_location_is_on` (source lines 426-447), with the monitor
list passed explicitly in place of the `xrandr` query.  Taking
`screens[0]` of an empty list raises `IndexError`, modelled as `none`. -/
def get_monitor_a_location_is_on (px py : Int) (screens : List Monitor) : Option Monitor :=
  match screens with
  | [] => none
  | first :: _ => some (find_resident px py first screens)

/-- Python list indexing `l[i]`: negative indices count from the end and
an index outside `[-len, len)` raises `IndexError` (modelled as `none`). -/
def py_list_get (l : List Monitor) (i : Int) : Option Monitor :=
  let j : Int := if i < 0 then (l.length : Int) + i else i
  if 0 ≤ j ∧ j < (l.length : Int) then l.get? j.toNat else none

/-- The name-match loop of `get_monitor_by_name_or_id` (source lines
480-487): first monitor whose lowered, stripped name equals the target,
else the supplied default. -/
def find_monitor_by_name (clean_target : String) (dflt : Monitor) : List Monitor → Monitor
  | [] => dflt
  | m :: rest =>
    if m.name.toLower.trim == clean_target then m
    else find_monitor_by_name clean_target dflt rest

/-- `get_monitor_by_name_or_id` (source lines 450-488), with the monitor
list passed explicitly.  Mirrors the Python truthiness tests: a
`monitor_id` of `0` fails `if monitor_id:` and a name of `""` fails
`if name:`.  `screens[0]` of an empty list raises (`none`); a truthy
`monitor_id` indexes the list directly, with `IndexError` mapped to
`None` (`none`). -/
def get_monitor_by_name_or_id (screens : List Monitor) (name : Option String)
    (monitor_id : Option Int) : Option Monitor :=
  -- `if name: name = str(name).strip()`
  let name : Option String := match name with
    | some n => if !n.isEmpty then some n.trim else some n
    | none => none
  match screens with
  | [] => none
  | first :: _ =>
    if truthyInt monitor_id then
      py_list_get screens (monitor_id.getD 0)
    else
      match name with
      | some n =>
        if !n.isEmpty then some (find_monitor_by_name n.toLower first screens)
        else some first
      | none => some first

/-- The special string `ACTIVE_WINDOW` of the source, flagging interest in
the active window. -/
def ACTIVE_WINDOW : String := ":ACTIVE:"

/-- The fields of `get_detailed_properties_of_window`'s result used by
`reposition_window`: the window title and the derived centre point. -/
structure WindowInfo where
  title : String
  centre_x : Int
  centre_y : Int
deriving Repr, DecidableEq

/-- An observable side effect of `reposition_window`: a move/resize
(`_resize_and_move_window_to_position`) or a desktop reassignment
(`_move_window_to_desktop`). -/
inductive WmAction where
  | move (window_id : Int) (x y w h : Int)
  | move_to_desktop (window_id : Int) (desktop_id : Int)
deriving Repr, DecidableEq

/-- The external collaborators of `reposition_window`, modelled as an
oracle record: the monitor list from `xrandr`, the window-id queries, the
per-window detail query and the spawn helper (`none` models
`_spawn_missing_application` raising). -/
structure Env where
  screens : List Monitor
  active_window_ids : List Int
  app_window_ids : String → List Int
  window_details : Int → Option WindowInfo
  spawn_window : String → Option Int

/-- The tail of `reposition_window` (source lines 643-706) once a window
id has been determined: fetch the window's details, pick the target
monitor, resolve the target rectangle and emit the move and desktop
actions.  The overall result is `none` when the Python code would raise an
uncaught exception (empty monitor list), otherwise `some` of the exit code
and the emitted actions. -/
def reposition_rest (env : Env) (window_id : Int) (target_monitor_name : Option String)
    (target_position : List String) (target_desktop_id : Option Int) :
    Option (Nat × List WmAction) :=
  match env.window_details window_id with
  | none => some (1, [])
  | some info =>
    let target_monitor :=
      if truthyStr target_monitor_name then
        get_monitor_by_name_or_id env.screens target_monitor_name none
      else
        get_monitor_a_location_is_on info.centre_x info.centre_y env.screens
    match target_monitor with
    | none => none
    | some monitor =>
      -- `if not target_position and not target_desktop_id:` (a desktop id
      -- of 0 is falsy here, though line 703 later tests `is not None`)
      if target_position.isEmpty && !truthyInt target_desktop_id then some (1, [])
      else
        let move_actions :=
          if !target_position.isEmpty then
            let margins := margins_for_window monitor.name info.title target_position
            let rect := resolve_target_rect monitor margins target_position
            [WmAction.move window_id rect.x rect.y rect.w rect.h]
          else []
        let desktop_actions :=
          match target_desktop_id with
          | some d => [WmAction.move_to_desktop window_id d]
          | none => []
        some (0, move_actions ++ desktop_actions)

/-- `reposition_window` (source lines 599-706): determine the window of
interest (the active window when neither an application name nor a window
id is given), then reposition it.  Returns `some (exit_code, actions)`, or
`none` when the Python code would raise an uncaught exception. -/
def reposition_window (env : Env) (application_name : Option String)
    (nth_instance_of_application : Nat) (window_id : Option Int)
    (target_monitor_name : Option String) (target_position : List String)
    (target_desktop_id : Option Int) (spawn_missing : Bool) :
    Option (Nat × List WmAction) :=
  -- `if not application_name and not window_id: application_name = ACTIVE_WINDOW`
  let application_name :=
    if !truthyStr application_name && !truthyInt window_id then some ACTIVE_WINDOW
    else application_name
  -- `if application_name and not window_id:`
  if truthyStr application_name && !truthyInt window_id then
    -- `window_ids = get_window_ids_of_interest(...)` then, for the active
    -- window, an unconditional `return 1` (source lines 624-627)
    if application_name = some ACTIVE_WINDOW then some (1, [])
    else
      let window_ids := env.app_window_ids (application_name.getD "")
      match window_ids.get? nth_instance_of_application with
      | some wid =>
        reposition_rest env wid target_monitor_name target_position target_desktop_id
      | none =>
        if spawn_missing then
          match env.spawn_window (application_name.getD "") with
          | some wid =>
            reposition_rest env wid target_monitor_name target_position target_desktop_id
          | none => none  -- a missing launcher raises a bare uncaught `Exception`
        else some (1, [])
  else
    reposition_rest env (window_id.getD 0) target_monitor_name target_position
      target_desktop_id

/-- The failure-collecting loop of `run_layout` (source lines 756-766):
run each placement, collecting it into the successes or the failures list
according to its exit code.  A placement outcome of `none` models
`reposition_window(**kwargs)` raising an uncaught exception (a
`CalledProcessError` from `check_call`, `IndexError` on `screens[0]` of an
empty monitor list, or the bare `Exception` of a missing launcher): the
loop has no `try`/`except`, so the exception propagates and the remaining
placements are never run (`none` overall). -/
def run_layout_loop {α : Type} (exec : α → Option Nat) : List α → Option (List α × List α)
  | [] => some ([], [])
  | s :: rest =>
    match exec s with
    | none => none
    | some error_code =>
      match run_layout_loop exec rest with
      | none => none
      | some r =>
        if error_code != 0 then some (r.1, s :: r.2) else some (s :: r.1, r.2)

/-- `run_layout` (source lines 730-770) with the layout already resolved to
its placement list and the per-placement execution
(`reposition_window(**kwargs)`) abstracted as `exec` (`none` = uncaught
exception): returns `len(failures)`, or `none` when a placement raised and
the loop aborted. -/
def run_layout {α : Type} (exec : α → Option Nat) (layout_list : List α) : Option Nat :=
  (run_layout_loop exec layout_list).map (fun r => r.2.length)

/-- The ordering step of `get_window_ids_of_application` (source lines
322-324): drop falsy (empty) id strings and sort the rest
lexicographically as strings (`sorted(filter(bool, list_of_window_ids))`).
-/
def sort_window_ids (ids : List String) : List String :=
  (ids.filter (fun s => !s.isEmpty)).mergeSort

/-- A call frame of `reposition_window_and_spawn_missing`
(source lines 709-727). -/
structure SpawnArgs where
  application_name : Option String
  nth_instance_of_application : Nat
  target_monitor_name : Option String
  target_position : List String
  target_desktop_id : Option Int
deriving Repr, DecidableEq

/-- `reposition_window_and_spawn_missing` (source lines 709-727): its body
is a single unconditional recursive call to itself with the same
arguments.  `fuel` bounds the call depth; `none` means the bound was
reached without the function ever returning. -/
def reposition_window_and_spawn_missing : Nat → SpawnArgs → Option Nat
  | 0, _ => none
  | fuel + 1, args => reposition_window_and_spawn_missing fuel args

end Windowpos

namespace Windowpos

/-- C1: for every monitor, every margin inset whose horizontal (resp.
vertical) margins sum to less than the monitor width (resp. height) and
every set of position keywords, the resolver's rectangle lies within the
monitor bounds minus the inset. -/
theorem resolve_target_rect_containment (m : Monitor) (mg : Margins) (pos : List String)
    (hw : mg.left + mg.right < (m.w : Int)) (hh : mg.top + mg.bottom < (m.h : Int)) :
    m.x + mg.left ≤ (resolve_target_rect m mg pos).x ∧
    (resolve_target_rect m mg pos).x + (resolve_target_rect m mg pos).w
      ≤ m.x + (m.w : Int) - mg.right ∧
    m.y + mg.top ≤ (resolve_target_rect m mg pos).y ∧
    (resolve_target_rect m mg pos).y + (resolve_target_rect m mg pos).h
      ≤ m.y + (m.h : Int) - mg.bottom := by
  have hwd : ((m.w / 2 : Nat) : Int) ≤ (m.w : Int) := by
    exact_mod_cast Nat.div_le_self m.w 2
  have hhd : ((m.h / 2 : Nat) : Int) ≤ (m.h : Int) := by
    exact_mod_cast Nat.div_le_self m.h 2
  unfold resolve_target_rect
  dsimp only
  rcases hl : pos.contains "left" <;> rcases hr : pos.contains "right" <;>
    rcases ht : pos.contains "top" <;> rcases hb : pos.contains "bottom" <;>
    simp only [hl, hr, ht, hb, Bool.false_or, Bool.or_false, Bool.true_or, Bool.or_true,
      if_true, if_false] <;>
    refine ⟨by omega, by omega, by omega, by omega⟩

/-- Witness for C1 at a concrete monitor, inset and position request. -/
theorem resolve_target_rect_containment_witness :
    ((0 : Int) + 0 < (1920 : Int) ∧ (0 : Int) + 24 < (1080 : Int)) ∧
    ((0 : Int) + 0 ≤ (resolve_target_rect ⟨"DP-0", 0, 0, 1920, 1080⟩ ⟨0, 0, 24, 0⟩ ["bottom"]).x ∧
     (resolve_target_rect ⟨"DP-0", 0, 0, 1920, 1080⟩ ⟨0, 0, 24, 0⟩ ["bottom"]).x +
       (resolve_target_rect ⟨"DP-0", 0, 0, 1920, 1080⟩ ⟨0, 0, 24, 0⟩ ["bottom"]).w
       ≤ (0 : Int) + (1920 : Int) - 0 ∧
     (0 : Int) + 0 ≤ (resolve_target_rect ⟨"DP-0", 0, 0, 1920, 1080⟩ ⟨0, 0, 24, 0⟩ ["bottom"]).y ∧
     (resolve_target_rect ⟨"DP-0", 0, 0, 1920, 1080⟩ ⟨0, 0, 24, 0⟩ ["bottom"]).y +
       (resolve_target_rect ⟨"DP-0", 0, 0, 1920, 1080⟩ ⟨0, 0, 24, 0⟩ ["bottom"]).h
       ≤ (0 : Int) + (1080 : Int) - 24) :=
  ⟨⟨by decide, by decide⟩,
    resolve_target_rect_containment ⟨"DP-0", 0, 0, 1920, 1080⟩ ⟨0, 0, 24, 0⟩ ["bottom"]
      (by decide) (by decide)⟩

/-- C2 counterexample: on a 1920x1080 monitor with zero margins and the
position request containing both `left` and `right`, the resolver pins the
rectangle to the LEFT edge (`x = 0`), not to the right edge
(`x = monitor.x + monitor.w - width - margin.right = 960`) as claimed. -/
theorem resolve_left_right_not_right_pinned :
    (resolve_target_rect ⟨"M", 0, 0, 1920, 1080⟩ ⟨0, 0, 0, 0⟩ ["left", "right"]).w = 960 ∧
    (resolve_target_rect ⟨"M", 0, 0, 1920, 1080⟩ ⟨0, 0, 0, 0⟩ ["left", "right"]).x = 0 ∧
    (resolve_target_rect ⟨"M", 0, 0, 1920, 1080⟩ ⟨0, 0, 0, 0⟩ ["left", "right"]).x
      ≠ 0 + 1920 -
        (resolve_target_rect ⟨"M", 0, 0, 1920, 1080⟩ ⟨0, 0, 0, 0⟩ ["left", "right"]).w - 0 := by
  refine ⟨by decide, by decide, by decide⟩

/-- C2 (amended): when the position request contains both `left` and
`right`, the width is halved (`monitor.w / 2 - margin.left - margin.right`)
and the later-evaluated `left` rule wins over `right`, so the rectangle is
left-pinned: `x = monitor.x + margin.left`. -/
theorem resolve_left_right_pins_left (m : Monitor) (mg : Margins) (pos : List String)
    (hl : pos.contains "left" = true) (hr : pos.contains "right" = true) :
    (resolve_target_rect m mg pos).w = ((m.w / 2 : Nat) : Int) - mg.left - mg.right ∧
    (resolve_target_rect m mg pos).x = m.x + mg.left := by
  refine ⟨?_, ?_⟩ <;>
    · unfold resolve_target_rect
      dsimp only
      simp only [hl, hr, Bool.true_or, Bool.or_true, if_true]
      try ring

/-- Witness for the amended C2 at a concrete monitor and request. -/
theorem resolve_left_right_pins_left_witness :
    ((["left", "right"].contains "left" = true ∧ ["left", "right"].contains "right" = true) ∧
      ((resolve_target_rect ⟨"M", 0, 0, 1920, 1080⟩ ⟨0, 0, 0, 0⟩ ["left", "right"]).w
          = ((1920 / 2 : Nat) : Int) - 0 - 0 ∧
        (resolve_target_rect ⟨"M", 0, 0, 1920, 1080⟩ ⟨0, 0, 0, 0⟩ ["left", "right"]).x
          = 0 + 0)) :=
  ⟨⟨by decide, by decide⟩,
    resolve_left_right_pins_left ⟨"M", 0, 0, 1920, 1080⟩ ⟨0, 0, 0, 0⟩ ["left", "right"]
      (by decide) (by decide)⟩

/-- C4: on monitor `{x:0, y:0, w:1920, h:1080}` with zero margins the
resolver maps `{top, left}` to `{x:0, y:0, w:960, h:540}` and
`{bottom, right}` to `{x:960, y:540, w:960, h:540}`. -/
theorem resolve_quadrant_examples :
    resolve_target_rect ⟨"M", 0, 0, 1920, 1080⟩ ⟨0, 0, 0, 0⟩ ["top", "left"]
      = ⟨0, 0, 960, 540⟩ ∧
    resolve_target_rect ⟨"M", 0, 0, 1920, 1080⟩ ⟨0, 0, 0, 0⟩ ["bottom", "right"]
      = ⟨960, 540, 960, 540⟩ := by
  refine ⟨by decide, by decide⟩

/-- The search loop of `get_monitor_a_location_is_on` returns the first
monitor containing the point, else the default. -/
theorem find_resident_eq_find (px py : Int) (dflt : Monitor) (l : List Monitor) :
    find_resident px py dflt l
      = (l.find? (fun m => monitor_contains m px py)).getD dflt := by
  induction l with
  | nil => rfl
  | cons m rest ih =>
    by_cases h : monitor_contains m px py
    · simp [find_resident, List.find?, h]
    · simp [find_resident, List.find?, h, ih]

/-- C5: for every point and every non-empty monitor sequence, the lookup
returns (without signalling an error) the first monitor whose rectangle
contains the point with inclusive bounds, falling back to the first
monitor of the sequence when none contains it. -/
theorem get_monitor_a_location_first_match (px py : Int) (first : Monitor)
    (rest : List Monitor) :
    get_monitor_a_location_is_on px py (first :: rest)
      = some (((first :: rest).find? (fun m => monitor_contains m px py)).getD first) := by
  simp [get_monitor_a_location_is_on, find_resident_eq_find]

/-- C10: a monitor index of `0` is falsy, so with index `0` and no name the
first monitor is returned; with index `0` and a name the result is the same
as name-only lookup; and for a non-zero index the result is exactly Python
list indexing (`monitors[index]` when in range, `None` otherwise),
bypassing the name lookup. -/
theorem get_monitor_by_name_or_id_zero_id (first : Monitor) (rest : List Monitor)
    (n : String) (nm : Option String) (i : Int) :
    get_monitor_by_name_or_id (first :: rest) none (some 0) = some first ∧
    get_monitor_by_name_or_id (first :: rest) (some n) (some 0)
      = get_monitor_by_name_or_id (first :: rest) (some n) none ∧
    (i ≠ 0 →
      get_monitor_by_name_or_id (first :: rest) nm (some i)
        = py_list_get (first :: rest) i) := by
  refine ⟨rfl, rfl, fun hi => ?_⟩
  have hb : truthyInt (some i) = true := by
    simp [truthyInt, hi]
  cases nm with
  | none => simp [get_monitor_by_name_or_id, hb]
  | some s => simp [get_monitor_by_name_or_id, hb]

/-- Witness for C10 at a concrete monitor list, name and non-zero index. -/
theorem get_monitor_by_name_or_id_zero_id_witness :
    (get_monitor_by_name_or_id [⟨"DP-0", 0, 0, 1920, 1080⟩, ⟨"DP-2", 1920, 0, 1920, 1080⟩]
        none (some 0) = some ⟨"DP-0", 0, 0, 1920, 1080⟩ ∧
      get_monitor_by_name_or_id [⟨"DP-0", 0, 0, 1920, 1080⟩, ⟨"DP-2", 1920, 0, 1920, 1080⟩]
        (some "DP-2") (some 0)
        = get_monitor_by_name_or_id [⟨"DP-0", 0, 0, 1920, 1080⟩, ⟨"DP-2", 1920, 0, 1920, 1080⟩]
            (some "DP-2") none) ∧
    ((1 : Int) ≠ 0 ∧
      get_monitor_by_name_or_id [⟨"DP-0", 0, 0, 1920, 1080⟩, ⟨"DP-2", 1920, 0, 1920, 1080⟩]
        (some "DP-0") (some 1)
        = py_list_get [⟨"DP-0", 0, 0, 1920, 1080⟩, ⟨"DP-2", 1920, 0, 1920, 1080⟩] 1) :=
  ⟨⟨(get_monitor_by_name_or_id_zero_id ⟨"DP-0", 0, 0, 1920, 1080⟩
        [⟨"DP-2", 1920, 0, 1920, 1080⟩] "DP-2" (some "DP-0") 1).1,
    (get_monitor_by_name_or_id_zero_id ⟨"DP-0", 0, 0, 1920, 1080⟩
        [⟨"DP-2", 1920, 0, 1920, 1080⟩] "DP-2" (some "DP-0") 1).2.1⟩,
    ⟨by decide,
      (get_monitor_by_name_or_id_zero_id ⟨"DP-0", 0, 0, 1920, 1080⟩
          [⟨"DP-2", 1920, 0, 1920, 1080⟩] "DP-2" (some "DP-0") 1).2.2 (by decide)⟩⟩

/-- C6: the browser-specific margin inset (the `CHROMIUM_MARGINS` entry for
the monitor name, defaulting to `(32,0,0,0)`) replaces the general
`SCREEN_MARGINS` entry exactly when the lowered title contains
"google chrome" or "chromium" and the request contains `left` or `right`
but neither `top` nor `bottom`; otherwise the general entry (defaulting to
all-zero) is used. -/
theorem margins_for_window_override (monitor_name title : String) (pos : List String) :
    margins_for_window monitor_name title pos
      = if (str_contains title.toLower "google chrome"
              || str_contains title.toLower "chromium")
            && ((pos.contains "left" || pos.contains "right")
              && !(pos.contains "top" || pos.contains "bottom")) then
          (CHROMIUM_MARGINS monitor_name).getD ⟨32, 0, 0, 0⟩
        else (SCREEN_MARGINS monitor_name).getD ⟨0, 0, 0, 0⟩ := by
  unfold margins_for_window
  dsimp only
  rcases h1 : (str_contains title.toLower "google chrome"
      || str_contains title.toLower "chromium") <;>
    rcases h2 : ((pos.contains "left" || pos.contains "right")
      && !(pos.contains "top" || pos.contains "bottom")) <;>
    simp [h1, h2]

/-- The loop of `run_layout` aborts (propagating the exception) exactly
when some placement raises. -/
theorem run_layout_loop_none_iff {α : Type} (exec : α → Option Nat) (l : List α) :
    run_layout_loop exec l = none ↔ ∃ s ∈ l, exec s = none := by
  induction l with
  | nil => simp [run_layout_loop]
  | cons s rest ih =>
    cases hc : exec s with
    | none =>
      simp only [run_layout_loop, hc]
      exact ⟨fun _ => ⟨s, List.mem_cons_self s rest, hc⟩, fun _ => trivial⟩
    | some c =>
      cases hr : run_layout_loop exec rest with
      | none =>
        obtain ⟨x, hx, hxn⟩ := ih.mp hr
        simp only [run_layout_loop, hc, hr]
        exact ⟨fun _ => ⟨x, List.mem_cons_of_mem s hx, hxn⟩, fun _ => trivial⟩
      | some r =>
        have hrest : ¬ ∃ x ∈ rest, exec x = none := fun hex => by
          rw [ih.mpr hex] at hr
          exact Option.noConfusion hr
        simp only [run_layout_loop, hc, hr]
        constructor
        · intro hcontra
          cases hz : (c != 0) <;> simp [hz] at hcontra
        · rintro ⟨x, hx, hxn⟩
          rcases List.mem_cons.mp hx with rfl | hx
          · rw [hc] at hxn
            exact Option.noConfusion hxn
          · exact absurd ⟨x, hx, hxn⟩ hrest

/-- When no placement raises, the loop of `run_layout` splits the
placement list into the successes (exit code zero) and the failures
(non-zero exit code), in order. -/
theorem run_layout_loop_eq {α : Type} (exec : α → Option Nat) (l : List α)
    (h : ∀ s ∈ l, (exec s).isSome) :
    run_layout_loop exec l
      = some (l.filter (fun s => (exec s).getD 0 == 0),
              l.filter (fun s => (exec s).getD 0 != 0)) := by
  induction l with
  | nil => rfl
  | cons s rest ih =>
    obtain ⟨c, hc⟩ := Option.isSome_iff_exists.mp (h s (List.mem_cons_self s rest))
    have hrest := ih (fun x hx => h x (List.mem_cons_of_mem s hx))
    by_cases hz : c = 0
    · simp [run_layout_loop, hc, hrest, hz]
    · simp [run_layout_loop, hc, hrest, hz]

/-- C7 counterexample: a two-placement layout whose first placement raises
an uncaught exception yields no failure count at all (the loop aborts and
the second placement is never attempted or collected), even though the
remaining placement succeeds when run on its own. -/
theorem run_layout_aborts_on_raise :
    run_layout (fun n : Nat => if n = 0 then none else some 0) [0, 1] = none ∧
    run_layout (fun n : Nat => if n = 0 then none else some 0) [1] = some 0 := by
  refine ⟨rfl, rfl⟩

/-- C7 (amended): `run_layout` aborts, returning no count, exactly when a
placement raises an uncaught exception; when every placement returns an
exit status, it attempts every placement even when earlier placements fail
with a non-zero status, collects each failed placement instead of
aborting, and returns the count of failed placements as the overall
status, which is zero exactly when all placements succeed. -/
theorem run_layout_counts_failures {α : Type} (exec : α → Option Nat) (l : List α) :
    (run_layout exec l = none ↔ ∃ s ∈ l, exec s = none) ∧
    ((∀ s ∈ l, (exec s).isSome) →
      run_layout_loop exec l
          = some (l.filter (fun s => (exec s).getD 0 == 0),
                  l.filter (fun s => (exec s).getD 0 != 0)) ∧
      run_layout exec l = some (l.filter (fun s => (exec s).getD 0 != 0)).length ∧
      (run_layout exec l = some 0 ↔ ∀ s ∈ l, exec s = some 0)) := by
  constructor
  · rw [run_layout, Option.map_eq_none']
    exact run_layout_loop_none_iff exec l
  · intro h
    have hloop := run_layout_loop_eq exec l h
    refine ⟨hloop, by simp [run_layout, hloop], ?_⟩
    simp only [run_layout, hloop, Option.map_some', Option.some.injEq,
      List.length_eq_zero, List.filter_eq_nil_iff]
    constructor
    · intro hall s hs
      obtain ⟨c, hc⟩ := Option.isSome_iff_exists.mp (h s hs)
      have hz := hall s hs
      rw [hc] at hz ⊢
      simp only [Option.getD_some, bne_iff_ne, ne_eq, not_not] at hz
      rw [hz]
    · intro hall s hs
      rw [hall s hs]
      simp

/-- Witness for the amended C7 at a concrete executor and placement list:
one failing and one succeeding placement, nothing raising. -/
theorem run_layout_counts_failures_witness :
    (∀ s ∈ ([0, 2] : List Nat), ((fun n : Nat => if n = 0 then some 1 else some 0) s).isSome) ∧
    run_layout (fun n : Nat => if n = 0 then some 1 else some 0) [0, 2] = some 1 :=
  ⟨by decide,
    ((run_layout_counts_failures (fun n : Nat => if n = 0 then some 1 else some 0)
        [0, 2]).2 (by decide)).2.1⟩

/-- C9: `reposition_window_and_spawn_missing` never terminates: whatever
the call-depth budget and the arguments, it never produces a result (its
body is an unconditional self-call with the same arguments). -/
theorem reposition_window_and_spawn_missing_diverges (fuel : Nat) (args : SpawnArgs) :
    reposition_window_and_spawn_missing fuel args = none := by
  induction fuel with
  | zero => rfl
  | succ n ih => exact ih

/-- C8: the window-id ordering is a lexicographic string sort: the output
is sorted under the string order, any two inputs holding the same ids (in
any order) yield the same output, and the id strings
`["300","10","2"]` sort to `["10","2","300"]` (string, not numeric,
order). -/
theorem window_ids_sorted_lexicographically :
    (∀ ids ids' : List String, ids.Perm ids' → sort_window_ids ids = sort_window_ids ids') ∧
    (∀ ids : List String, (sort_window_ids ids).Sorted (· ≤ ·)) ∧
    sort_window_ids ["300", "10", "2"] = ["10", "2", "300"] := by
  have hsorted : ∀ ids : List String, (sort_window_ids ids).Sorted (· ≤ ·) := fun ids =>
    List.sorted_mergeSort' _
  have hperm : ∀ ids : List String,
      (sort_window_ids ids).Perm (ids.filter (fun s => !s.isEmpty)) := fun ids =>
    List.mergeSort_perm _ _
  have hinv : ∀ ids ids' : List String,
      ids.Perm ids' → sort_window_ids ids = sort_window_ids ids' := by
    intro a b hab
    refine List.eq_of_perm_of_sorted ?_ (hsorted a) (hsorted b)
    exact ((hperm a).trans (hab.filter _)).trans (hperm b).symm
  refine ⟨hinv, hsorted, ?_⟩
  refine List.eq_of_perm_of_sorted ((hperm _).trans ?_) (hsorted _) ?_
  · decide
  · have h12 : ("10" : String) ≤ "2" := String.le_iff_toList_le.mpr (by decide)
    have h13 : ("10" : String) ≤ "300" := String.le_iff_toList_le.mpr (by decide)
    have h23 : ("2" : String) ≤ "300" := String.le_iff_toList_le.mpr (by decide)
    refine List.Pairwise.cons ?_ (List.Pairwise.cons ?_ (List.Pairwise.cons ?_ List.Pairwise.nil))
    · intro b hb
      rcases List.mem_cons.mp hb with rfl | hb
      · exact h12
      · rcases List.mem_cons.mp hb with rfl | hb
        · exact h13
        · exact absurd hb (List.not_mem_nil b)
    · intro b hb
      rcases List.mem_cons.mp hb with rfl | hb
      · exact h23
      · exact absurd hb (List.not_mem_nil b)
    · intro b hb
      exact absurd hb (List.not_mem_nil b)

/-- Witness for C8's permutation-invariance at two concrete id lists. -/
theorem window_ids_sorted_lexicographically_witness :
    sort_window_ids ["300", "10"] = sort_window_ids ["10", "300"] :=
  window_ids_sorted_lexicographically.1 ["300", "10"] ["10", "300"] (by decide)

/-- C3: calling `reposition_window` with neither an application name nor a
window id takes the active-window path, which returns exit status 1 and
performs no move, resize or desktop action, regardless of the environment
(in particular, even when an active window exists and a valid target
position is supplied). -/
theorem reposition_window_active_returns_one (env : Env) (nth : Nat)
    (target_monitor_name : Option String) (target_position : List String)
    (target_desktop_id : Option Int) (spawn_missing : Bool) :
    reposition_window env none nth none target_monitor_name target_position
      target_desktop_id spawn_missing = some (1, []) := rfl

end Windowpos
